import Mathlib

/-!
# Verification of the matrix-sandbox visualizer (sandbox.py)

Shallow embedding of the core of `sandbox.py`: the sandboxed expression
evaluator `safe_eval`, the geometry builders `make_grid` and `make_vector`,
the per-frame transform matrix, the uniform upload / GLSL vertex-shader
semantics, and one iteration of the render loop over the shared control
state.  Real numbers stand for Python floats (ideal-arithmetic model);
transcendental functions are Mathlib's.
-/

namespace Sandbox

/-! ## Expression evaluator (`safe_eval`, sandbox.py lines 109-113)

The Python code evaluates a user string with
`eval(expr, {"__builtins__": {}, "math": math, "t": t})`, converts the
result with `float(...)`, and maps every raised `Exception` to `0.0`.

We embed the fragment of Python expressions that this namespace can
meaningfully exercise: numeric literals, string literals, name lookup,
attribute access on the `math` module, unary-argument calls, unary minus
and the four arithmetic operators.  Multi-argument calls, attributes of
non-module values and numeric-string conversion do not occur in any
expression the spec or the defaults use and are not modelled.  Parsing is
not modelled: a concrete source string is represented by the `Expr` tree
Python would parse it to, and a string that fails to parse (such as `""`,
a `SyntaxError`) by `none`.
-/

/-- Abstract syntax of the modelled Python expression fragment.
Rational literals stand for Python numeric literals. -/
inductive Expr where
  | num (q : ℚ)
  | strLit (s : String)
  | name (s : String)
  | attr (e : Expr) (s : String)
  | call1 (f : Expr) (a : Expr)
  | neg (e : Expr)
  | add (a b : Expr)
  | sub (a b : Expr)
  | mul (a b : Expr)
  | div (a b : Expr)
deriving DecidableEq, Repr

/-- Python exceptions that evaluation of the modelled fragment can raise.
All of them derive from `Exception`, so `safe_eval` absorbs each one. -/
inductive Err where
  | nameError (s : String)
  | attributeError (s : String)
  | typeError
  | zeroDivisionError
  | valueError
deriving DecidableEq, Repr

/-- Runtime values of the modelled fragment: floats, strings, the `math`
module object, and the callable attributes of `math`. -/
inductive Value where
  | num (r : ℝ)
  | str (s : String)
  | mathModule
  | emptyDict
  | mathFn (s : String)

/-- Name lookup in the eval namespace
`{"__builtins__": {}, "math": math, "t": t}`: exactly `t`, `math` and the
neutralized `__builtins__` entry resolve; every other identifier raises
`NameError`. -/
def lookupName (t : ℝ) (s : String) : Except Err Value :=
  if s = "t" then .ok (.num t)
  else if s = "math" then .ok .mathModule
  else if s = "__builtins__" then .ok .emptyDict
  else .error (.nameError s)

/-- The callable attributes of `math` that the embedding models. -/
def mathFns : List String := ["sin", "cos", "tan", "sqrt"]

/-- Attribute lookup on the `math` module: the constants `pi` and `e` and
the modelled unary functions; other names are outside the fragment and
raise `AttributeError` here. -/
noncomputable def mathAttr (s : String) : Except Err Value :=
  if s = "pi" then .ok (.num Real.pi)
  else if s = "e" then .ok (.num (Real.exp 1))
  else if s ∈ mathFns then .ok (.mathFn s)
  else .error (.attributeError s)

/-- Application of a `math` function to a float argument.  `math.sqrt`
raises `ValueError` on negative input; the others are total. -/
noncomputable def applyMathFn (s : String) (x : ℝ) : Except Err ℝ :=
  if s = "sin" then .ok (Real.sin x)
  else if s = "cos" then .ok (Real.cos x)
  else if s = "tan" then .ok (Real.tan x)
  else if s = "sqrt" then
    if x < 0 then .error .valueError else .ok (Real.sqrt x)
  else .error .typeError

/-- Python `+` on the modelled values: float addition and string
concatenation; everything else raises `TypeError`. -/
noncomputable def addV : Value → Value → Except Err Value
  | .num x, .num y => .ok (.num (x + y))
  | .str a, .str b => .ok (.str (a ++ b))
  | _, _ => .error .typeError

/-- Python `-` on the modelled values. -/
noncomputable def subV : Value → Value → Except Err Value
  | .num x, .num y => .ok (.num (x - y))
  | _, _ => .error .typeError

/-- Python `*` on the modelled values (string repetition is outside the
fragment). -/
noncomputable def mulV : Value → Value → Except Err Value
  | .num x, .num y => .ok (.num (x * y))
  | _, _ => .error .typeError

/-- Python `/` on the modelled values: raises `ZeroDivisionError` on a
zero divisor, as Python division does for both int and float. -/
noncomputable def divV : Value → Value → Except Err Value
  | .num x, .num y => if y = 0 then .error .zeroDivisionError else .ok (.num (x / y))
  | _, _ => .error .typeError

/-- Evaluation of the modelled fragment under the `safe_eval` namespace
with `t` bound to the given float.  Errors short-circuit exactly as
raised exceptions do; in a call the function position is evaluated
before the argument, as in CPython. -/
noncomputable def evalE (t : ℝ) : Expr → Except Err Value
  | .num q => .ok (.num (q : ℝ))
  | .strLit s => .ok (.str s)
  | .name s => lookupName t s
  | .attr e s => do
      match ← evalE t e with
      | .mathModule => mathAttr s
      | _ => .error (.attributeError s)
  | .call1 f a => do
      let fv ← evalE t f
      let av ← evalE t a
      match fv, av with
      | .mathFn s, .num x => (applyMathFn s x).map .num
      | _, _ => .error .typeError
  | .neg e => do
      match ← evalE t e with
      | .num r => .ok (.num (-r))
      | _ => .error .typeError
  | .add a b => do addV (← evalE t a) (← evalE t b)
  | .sub a b => do subV (← evalE t a) (← evalE t b)
  | .mul a b => do mulV (← evalE t a) (← evalE t b)
  | .div a b => do divV (← evalE t a) (← evalE t b)

/-- The trailing `float(...)` conversion: floats pass through, a string in
this fragment is non-numeric and raises `ValueError`, the module, the
empty dict and function objects raise `TypeError`. -/
noncomputable def floatOfValue : Value → Except Err ℝ
  | .num r => .ok r
  | .str _ => .error .valueError
  | _ => .error .typeError

/-- `float(eval(expr, ...))`: evaluation followed by float conversion. -/
noncomputable def evalFloat (t : ℝ) (e : Expr) : Except Err ℝ :=
  evalE t e >>= floatOfValue

/-- `safe_eval` (sandbox.py lines 109-113): a parse failure (`none`) or
any raised exception yields `0.0`; otherwise the converted float. -/
noncomputable def safe_eval (oe : Option Expr) (t : ℝ) : ℝ :=
  match oe with
  | none => 0
  | some e =>
    match evalFloat t e with
    | .ok r => r
    | .error _ => 0

/-! Concrete expression trees for the source strings the spec names. -/

/-- The source string `""`: a `SyntaxError`, hence no tree. -/
def expr_empty : Option Expr := none

/-- The source string `"1/0"`. -/
def expr_one_div_zero : Option Expr := some (.div (.num 1) (.num 0))

/-- The source string `"__import__('os')"`. -/
def expr_import_os : Option Expr :=
  some (.call1 (.name ("__import__")) (.strLit ("os")))

/-- The source string `"t"`. -/
def expr_t : Option Expr := some (.name ("t"))

/-- The source string `"cos(t)"` (bare name, as the spec writes it). -/
def expr_cos_t : Option Expr :=
  some (.call1 (.name ("cos")) (.name ("t")))

/-- The source string `"sin(t)"` (bare name, as the spec writes it). -/
def expr_sin_t : Option Expr :=
  some (.call1 (.name ("sin")) (.name ("t")))

/-- The source string `"-sin(t)"` (bare name, as the spec writes it). -/
def expr_neg_sin_t : Option Expr :=
  some (.neg (.call1 (.name ("sin")) (.name ("t"))))

/-- The source string `"math.cos(t)"` (the default in `make_controls`). -/
def expr_math_cos_t : Option Expr :=
  some (.call1 (.attr (.name ("math")) ("cos")) (.name ("t")))

/-- The source string `"math.sin(t)"` (the default in `make_controls`). -/
def expr_math_sin_t : Option Expr :=
  some (.call1 (.attr (.name ("math")) ("sin")) (.name ("t")))

/-- The source string `"-math.sin(t)"` (the default in `make_controls`). -/
def expr_neg_math_sin_t : Option Expr :=
  some (.neg (.call1 (.attr (.name ("math")) ("sin")) (.name ("t"))))

/-! ## Geometry builders (sandbox.py lines 44-70)

`make_grid` and `make_vector` build flat vertex lists that are uploaded
once and drawn as `GL_LINES`: each group of four numbers is one line
segment `(x1, y1, x2, y2)`.  The grid only ever holds the integers
`-n .. n`, so it is embedded over `ℤ`.
-/

/-- `make_grid(n)` (sandbox.py lines 44-49): for each `i` in
`range(-n, n+1)` append the vertical segment `[i, -n, i, n]` and the
horizontal segment `[-n, i, n, i]`.  `k` ranges over `0 .. 2n` and
`i = k - n` ranges over `-n .. n`. -/
def make_grid (n : ℕ) : List ℤ :=
  (List.range (2 * n + 1)).flatMap (fun k =>
    let i : ℤ := (k : ℤ) - (n : ℤ)
    [i, -(n : ℤ), i, (n : ℤ)] ++ [-(n : ℤ), i, (n : ℤ), i])

/-- `math.atan2(y, x)`, embedded as the argument of the complex number
`x + y*I`; like Python, it sends `(0, 0)` to `0`. -/
noncomputable def atan2 (y x : ℝ) : ℝ := Complex.arg ⟨x, y⟩

/-- `math.radians(d)`: degrees to radians. -/
noncomputable def radians (d : ℝ) : ℝ := d * Real.pi / 180

/-- The arrowhead length from the source, `head_len = 0.3`. -/
noncomputable def head_len : ℝ := 0.3

/-- The arrowhead half-angle from the source, `head_ang = math.radians(20)`. -/
noncomputable def head_ang : ℝ := radians 20

/-- `make_vector(x, y)` (sandbox.py lines 51-70): the shaft from the
origin to `(x, y)` followed by the two arrowhead wings, each from the
tip `(x, y)` back along `angle + pi -+ head_ang` by `head_len`, where
`angle = atan2(y, x)`. -/
noncomputable def make_vector (x y : ℝ) : List ℝ :=
  let angle := atan2 y x
  let left := angle + Real.pi - head_ang
  let right := angle + Real.pi + head_ang
  [0, 0, x, y]
    ++ [x, y, x + head_len * Real.cos left, y + head_len * Real.sin left]
    ++ [x, y, x + head_len * Real.cos right, y + head_len * Real.sin right]

/-! ## Frame transform (sandbox.py lines 115-126) and GL semantics -/

/-- The 4x4 matrix `M` built each frame (sandbox.py lines 120-123):
top-left 2x2 block `[[a, b], [c, d]]`, third and fourth rows and columns
as in the identity. -/
def build_matrix (a b c d : ℝ) : Matrix (Fin 4) (Fin 4) ℝ :=
  !![a, b, 0, 0; c, d, 0, 0; 0, 0, 1, 0; 0, 0, 0, 1]

/-- The 16-float buffer handed to `glUniformMatrix4fv`: the numpy array
is C-ordered, so entry `k` of the buffer is row `k / 4`, column `k % 4`
of the matrix (row-major flattening). -/
def row_major (M : Matrix (Fin 4) (Fin 4) ℝ) : Fin 16 → ℝ :=
  fun k => M ⟨k.val / 4, by omega⟩ ⟨k.val % 4, by omega⟩

/-- How the GL reads a 16-float uniform buffer when the transpose flag is
`GL_FALSE`: consecutive buffer entries fill columns, so entry `j*4 + i`
is row `i`, column `j` of the matrix the shader sees. -/
def gl_read (buf : Fin 16 → ℝ) : Matrix (Fin 4) (Fin 4) ℝ :=
  fun i j => buf ⟨j.val * 4 + i.val, by omega⟩

/-- The vertex shader (sandbox.py lines 8-15):
`gl_Position = uTransform * vec4(aPos, 0.0, 1.0)`. -/
def shader_output (M : Matrix (Fin 4) (Fin 4) ℝ) (x y : ℝ) : Fin 4 → ℝ :=
  M.mulVec ![x, y, 0, 1]

/-! ## Shared control state and one render-loop iteration
(sandbox.py lines 99-146, 154-167)

The render loop only ever calls `.get()` on the Tk variables; each
expression field is modelled as the parse result of its current string
and each scalar field as a real.
-/

/-- The fields of the `shared` dict read by the render loop. -/
structure Shared where
  a_expr : Option Expr
  b_expr : Option Expr
  c_expr : Option Expr
  d_expr : Option Expr
  a_scale : ℝ
  b_scale : ℝ
  c_scale : ℝ
  d_scale : ℝ
  paused : Bool
  show_grid : Bool
  show_arrow : Bool
  t0 : ℝ

/-- The per-frame matrix entries (sandbox.py lines 115-118): each entry is
`safe_eval(expr) * scale`, nothing more. -/
noncomputable def frame_a (s : Shared) (t : ℝ) : ℝ := safe_eval s.a_expr t * s.a_scale

/-- Entry `b` of the frame transform. -/
noncomputable def frame_b (s : Shared) (t : ℝ) : ℝ := safe_eval s.b_expr t * s.b_scale

/-- Entry `c` of the frame transform. -/
noncomputable def frame_c (s : Shared) (t : ℝ) : ℝ := safe_eval s.c_expr t * s.c_scale

/-- Entry `d` of the frame transform. -/
noncomputable def frame_d (s : Shared) (t : ℝ) : ℝ := safe_eval s.d_expr t * s.d_scale

/-- The frame transform built from the shared state at elapsed time `t`
(sandbox.py lines 115-123). -/
noncomputable def frame_matrix (s : Shared) (t : ℝ) : Matrix (Fin 4) (Fin 4) ℝ :=
  build_matrix (frame_a s t) (frame_b s t) (frame_c s t) (frame_d s t)

/-- What one loop iteration does, as observable actions. -/
structure FrameActions where
  evalCount : ℕ
  cleared : Bool
  drewGrid : Bool
  drewArrow : Bool
  presented : Bool
  slept : Bool
  transform : Option (Matrix (Fin 4) (Fin 4) ℝ)

/-- One iteration of the render loop body (sandbox.py lines 99-144) at
wall-clock time `now`: when `paused` reads true the iteration sleeps and
re-polls, doing nothing else; otherwise it evaluates the four
expressions at `t = now - t0`, builds the transform, clears, draws the
enabled geometries and presents. -/
noncomputable def loop_iter (s : Shared) (now : ℝ) : FrameActions :=
  if s.paused then
    { evalCount := 0, cleared := false, drewGrid := false, drewArrow := false,
      presented := false, slept := true, transform := none }
  else
    { evalCount := 4, cleared := true, drewGrid := s.show_grid,
      drewArrow := s.show_arrow, presented := true, slept := false,
      transform := some (frame_matrix s (now - s.t0)) }

/-- The frame left on screen after one iteration: a paused iteration
presents nothing, so the previously displayed frame persists; otherwise
the freshly built transform is drawn and presented. -/
noncomputable def screen_after (prev : Option (Matrix (Fin 4) (Fin 4) ℝ))
    (s : Shared) (now : ℝ) : Option (Matrix (Fin 4) (Fin 4) ℝ) :=
  if s.paused then prev else some (frame_matrix s (now - s.t0))

/-- The shared state as the loop body leaves it: the body contains no
assignment to any `shared` field (sandbox.py lines 99-144 only call
`.get()`), so it is the state it was given. -/
def loop_iter_shared (s : Shared) (_now : ℝ) : Shared := s

/-- Names of the shared fields, for the access trace. -/
inductive SField where
  | aExpr | bExpr | cExpr | dExpr
  | aScale | bScale | cScale | dScale
  | pausedF | showGridF | showArrowF | t0F
deriving DecidableEq, Repr

/-- A single access to a shared field. -/
inductive Access where
  | read (f : SField)
  | write (f : SField)
deriving DecidableEq, Repr

/-- The sequence of shared-field accesses one loop iteration performs, in
source order (sandbox.py lines 101-137): `paused` first; when it reads
true nothing else is touched; otherwise `t0`, then each expression and
its scale for `a`, `b`, `c`, `d`, then the two visibility flags. -/
def loop_iter_trace (s : Shared) : List Access :=
  if s.paused then [.read .pausedF]
  else
    [.read .pausedF, .read .t0F,
     .read .aExpr, .read .aScale, .read .bExpr, .read .bScale,
     .read .cExpr, .read .cScale, .read .dExpr, .read .dScale,
     .read .showGridF, .read .showArrowF]

/-- The defaults installed by `make_controls` (sandbox.py lines 154-167):
expressions `math.cos(t)`, `math.sin(t)`, `-math.sin(t)`, `math.cos(t)`,
all scales `1.0`, not paused, both geometries shown. -/
noncomputable def default_shared (t0 : ℝ) : Shared :=
  { a_expr := expr_math_cos_t, b_expr := expr_math_sin_t,
    c_expr := expr_neg_math_sin_t, d_expr := expr_math_cos_t,
    a_scale := 1, b_scale := 1, c_scale := 1, d_scale := 1,
    paused := false, show_grid := true, show_arrow := true, t0 := t0 }

/-- The state the spec's claim C3 literally describes: the bare-name
expressions `cos(t)`, `sin(t)`, `-sin(t)`, `cos(t)` with all scales 1. -/
noncomputable def bare_shared (t0 : ℝ) : Shared :=
  { a_expr := expr_cos_t, b_expr := expr_sin_t,
    c_expr := expr_neg_sin_t, d_expr := expr_cos_t,
    a_scale := 1, b_scale := 1, c_scale := 1, d_scale := 1,
    paused := false, show_grid := true, show_arrow := true, t0 := t0 }

/-! ## Evaluation lemmas for the concrete expressions -/

/-- Evaluating the bare variable reference returns the bound `t`. -/
theorem safe_eval_expr_t (t : ℝ) : safe_eval expr_t t = t := by
  simp [safe_eval, expr_t, evalFloat, evalE, lookupName, floatOfValue, Bind.bind, Except.bind]

theorem safe_eval_expr_math_cos_t (t : ℝ) : safe_eval expr_math_cos_t t = Real.cos t := by
  simp [safe_eval, expr_math_cos_t, evalFloat, evalE, lookupName, mathAttr, mathFns,
    applyMathFn, floatOfValue, Bind.bind, Except.bind, Except.map]

theorem safe_eval_expr_math_sin_t (t : ℝ) : safe_eval expr_math_sin_t t = Real.sin t := by
  simp [safe_eval, expr_math_sin_t, evalFloat, evalE, lookupName, mathAttr, mathFns,
    applyMathFn, floatOfValue, Bind.bind, Except.bind, Except.map]

theorem safe_eval_expr_neg_math_sin_t (t : ℝ) :
    safe_eval expr_neg_math_sin_t t = -Real.sin t := by
  simp [safe_eval, expr_neg_math_sin_t, evalFloat, evalE, lookupName, mathAttr, mathFns,
    applyMathFn, floatOfValue, Bind.bind, Except.bind, Except.map]

theorem safe_eval_expr_cos_t (t : ℝ) : safe_eval expr_cos_t t = 0 := by
  simp [safe_eval, expr_cos_t, evalFloat, evalE, lookupName, floatOfValue,
    Bind.bind, Except.bind]

theorem safe_eval_expr_sin_t (t : ℝ) : safe_eval expr_sin_t t = 0 := by
  simp [safe_eval, expr_sin_t, evalFloat, evalE, lookupName, floatOfValue,
    Bind.bind, Except.bind]

theorem safe_eval_expr_neg_sin_t (t : ℝ) : safe_eval expr_neg_sin_t t = 0 := by
  simp [safe_eval, expr_neg_sin_t, evalFloat, evalE, lookupName, floatOfValue,
    Bind.bind, Except.bind]

theorem safe_eval_expr_one_div_zero (t : ℝ) : safe_eval expr_one_div_zero t = 0 := by
  simp [safe_eval, expr_one_div_zero, evalFloat, evalE, divV, floatOfValue,
    Bind.bind, Except.bind]

theorem safe_eval_expr_import_os (t : ℝ) : safe_eval expr_import_os t = 0 := by
  simp [safe_eval, expr_import_os, evalFloat, evalE, lookupName, floatOfValue,
    Bind.bind, Except.bind]

/-! ## Claim theorems: the expression evaluator -/

/-- Claim C1: for every expression and every value of `t`, `safe_eval`
returns `0.0` whenever evaluation fails for any reason and never
propagates a failure; in particular the sources `"1/0"`,
`"__import__('os')"` and `""` all evaluate to `0.0`. -/
theorem safe_eval_fail_safe :
    (∀ (oe : Option Expr) (t : ℝ),
        (∀ e r, oe = some e → evalFloat t e ≠ .ok r) → safe_eval oe t = 0)
    ∧ safe_eval expr_one_div_zero 1 = 0
    ∧ safe_eval expr_import_os 1 = 0
    ∧ safe_eval expr_empty 1 = 0 := by
  refine ⟨?_, safe_eval_expr_one_div_zero 1, safe_eval_expr_import_os 1, rfl⟩
  intro oe t h
  match oe with
  | none => rfl
  | some e =>
    simp only [safe_eval]
    match hv : evalFloat t e with
    | .ok r => exact absurd hv (h e r rfl)
    | .error _ => rfl

/-- Witness for C1 at the concrete input `""` (a parse failure). -/
theorem safe_eval_fail_safe_witness : safe_eval expr_empty 1 = 0 :=
  safe_eval_fail_safe.1 expr_empty 1 (by intro e r hsome; simp [expr_empty] at hsome)

/-- Counterexample to claim C2 as stated: the namespace does not make the
math functions reachable by bare name, so `evaluate("cos(t)", 0.0)` is
`0.0` (a `NameError` absorbed by the fail-safe), not `1.0`. -/
theorem bare_cos_not_reachable :
    safe_eval expr_cos_t 0 = 0 ∧ safe_eval expr_cos_t 0 ≠ 1 := by
  refine ⟨safe_eval_expr_cos_t 0, ?_⟩
  rw [safe_eval_expr_cos_t 0]
  norm_num

/-- Claim C2 (amended): the namespace binds `t` to the supplied value and
the `math` module object (plus the neutralized `__builtins__` entry) and
nothing else, so the math functions are reachable only as `math.sin`,
`math.cos`, ...; `evaluate("t", 2.5) = 2.5`,
`evaluate("math.cos(t)", 0.0) = 1.0`, and the bare-name form
`evaluate("cos(t)", 0.0)` falls back to `0.0`. -/
theorem eval_namespace :
    (∀ t : ℝ, lookupName t ("t") = .ok (.num t))
    ∧ (∀ t : ℝ, lookupName t ("math") = .ok .mathModule)
    ∧ (∀ (t : ℝ) (s : String), s ≠ "t" → s ≠ "math" → s ≠ "__builtins__" →
        lookupName t s = .error (.nameError s))
    ∧ safe_eval expr_t 2.5 = 2.5
    ∧ safe_eval expr_math_cos_t 0 = 1
    ∧ safe_eval expr_cos_t 0 = 0 := by
  refine ⟨fun t => rfl, fun t => rfl, fun t s h1 h2 h3 => ?_,
    safe_eval_expr_t 2.5, ?_, safe_eval_expr_cos_t 0⟩
  · simp [lookupName, h1, h2, h3]
  · rw [safe_eval_expr_math_cos_t 0, Real.cos_zero]

/-- Witness for C2 (amended) at `t = 0` and the unbound name `"os"`. -/
theorem eval_namespace_witness :
    lookupName 0 ("os") = .error (.nameError ("os")) :=
  eval_namespace.2.2.1 0 ("os") (by decide) (by decide) (by decide)

/-- Claim C10: the evaluator is deterministic — it is a pure function of
the expression and of `t`, reaching no randomness, I/O or mutable state,
so equal arguments give equal results. -/
theorem safe_eval_deterministic :
    ∀ (oe oe' : Option Expr) (t t' : ℝ),
      oe = oe' → t = t' → safe_eval oe t = safe_eval oe' t' := by
  intro oe oe' t t' he ht
  rw [he, ht]

/-- Witness for C10: two identical calls at `"t"`, `t = 1` agree. -/
theorem safe_eval_deterministic_witness :
    safe_eval expr_t 1 = safe_eval expr_t 1 :=
  safe_eval_deterministic expr_t expr_t 1 1 rfl rfl

/-! ## Claim theorems: the frame transform -/

/-- `build_matrix 1 0 0 1` is the 4x4 identity (shared helper). -/
theorem build_matrix_id : build_matrix 1 0 0 1 = (1 : Matrix (Fin 4) (Fin 4) ℝ) := by
  ext i j
  fin_cases i <;> fin_cases j <;>
    simp [build_matrix, Matrix.one_apply, Matrix.vecHead, Matrix.vecTail]

/-- The frame entries under the spec's bare-name expressions all
evaluate to 0 (shared helper for C3). -/
theorem frame_matrix_bare (t0 t : ℝ) :
    frame_matrix (bare_shared t0) t = build_matrix 0 0 0 0 := by
  simp [frame_matrix, frame_a, frame_b, frame_c, frame_d, bare_shared,
    safe_eval_expr_cos_t, safe_eval_expr_sin_t, safe_eval_expr_neg_sin_t]

/-- Counterexample to claim C3 as stated: with the bare-name expressions
`cos(t)`, `sin(t)`, `-sin(t)`, `cos(t)` and all scales 1, every entry
evaluates to 0 (each is a `NameError` absorbed to 0.0), so at `t = 0`
the frame transform is the zero-block matrix, not the identity. -/
theorem bare_frame_not_identity :
    frame_matrix (bare_shared 0) 0 = build_matrix 0 0 0 0
    ∧ frame_matrix (bare_shared 0) 0 ≠ 1 := by
  refine ⟨frame_matrix_bare 0 0, ?_⟩
  rw [frame_matrix_bare 0 0]
  intro h
  have h00 := congrFun (congrFun h 0) 0
  simp [build_matrix, Matrix.one_apply] at h00

/-- Claim C3 (amended): with the code's default expressions
`math.cos(t)`, `math.sin(t)`, `-math.sin(t)`, `math.cos(t)` and all
scales 1, the frame transform is the rotation by `t`: the identity at
`t = 0`, and at `t = pi/2` the entries are `a = 0`, `b = 1`, `c = -1`,
`d = 0`. -/
theorem default_frame_rotation :
    (∀ t : ℝ, frame_matrix (default_shared 0) t
      = build_matrix (Real.cos t) (Real.sin t) (-Real.sin t) (Real.cos t))
    ∧ frame_matrix (default_shared 0) 0 = 1
    ∧ frame_matrix (default_shared 0) (Real.pi / 2)
        = build_matrix 0 1 (-1) 0 := by
  have hgen : ∀ t : ℝ, frame_matrix (default_shared 0) t
      = build_matrix (Real.cos t) (Real.sin t) (-Real.sin t) (Real.cos t) := by
    intro t
    simp [frame_matrix, frame_a, frame_b, frame_c, frame_d, default_shared,
      safe_eval_expr_math_cos_t, safe_eval_expr_math_sin_t,
      safe_eval_expr_neg_math_sin_t]
  refine ⟨hgen, ?_, ?_⟩
  · rw [hgen 0]
    simp [build_matrix_id]
  · rw [hgen (Real.pi / 2)]
    simp

/-- Claim C4: `build_matrix a b c d` has top-left 2x2 block
`[[a, b], [c, d]]` and identity third and fourth rows and columns; each
entry fed to it per frame is exactly `safe_eval(expr) * scale` with no
further normalization; and `build_matrix 1 0 0 1` is the identity. -/
theorem build_matrix_spec :
    (∀ a b c d : ℝ,
      build_matrix a b c d 0 0 = a ∧ build_matrix a b c d 0 1 = b
      ∧ build_matrix a b c d 1 0 = c ∧ build_matrix a b c d 1 1 = d
      ∧ (∀ i j : Fin 4, 2 ≤ i.val ∨ 2 ≤ j.val →
          build_matrix a b c d i j = (1 : Matrix (Fin 4) (Fin 4) ℝ) i j))
    ∧ (∀ (s : Shared) (t : ℝ), frame_matrix s t
        = build_matrix (safe_eval s.a_expr t * s.a_scale)
            (safe_eval s.b_expr t * s.b_scale)
            (safe_eval s.c_expr t * s.c_scale)
            (safe_eval s.d_expr t * s.d_scale))
    ∧ build_matrix 1 0 0 1 = 1 := by
  refine ⟨fun a b c d => ⟨rfl, rfl, rfl, rfl, fun i j h => ?_⟩,
    fun s t => rfl, build_matrix_id⟩
  fin_cases i <;> fin_cases j <;>
    simp_all [build_matrix, Matrix.one_apply, Matrix.vecHead, Matrix.vecTail]

/-- Witness for C4 at concrete entries: row 2 of `build_matrix 5 6 7 8`
agrees with the identity at column 3. -/
theorem build_matrix_spec_witness :
    build_matrix 5 6 7 8 2 3 = (1 : Matrix (Fin 4) (Fin 4) ℝ) 2 3 :=
  ((build_matrix_spec.1 5 6 7 8).2.2.2.2) 2 3 (Or.inl (by norm_num))

/-- Claim C5: the uploaded buffer is the row-major flattening of
`[[a,b,0,0],[c,d,0,0],[0,0,1,0],[0,0,0,1]]` passed with transpose flag
`GL_FALSE`; the GL reads it column-major, so the shader applies the
transpose of the documented block and maps `(x, y)` to
`(a*x + c*y, b*x + d*y)`. -/
theorem gl_applies_transpose :
    ∀ a b c d x y : ℝ,
      gl_read (row_major (build_matrix a b c d)) = (build_matrix a b c d).transpose
      ∧ shader_output (gl_read (row_major (build_matrix a b c d))) x y 0
          = a * x + c * y
      ∧ shader_output (gl_read (row_major (build_matrix a b c d))) x y 1
          = b * x + d * y := by
  intro a b c d x y
  have hT : gl_read (row_major (build_matrix a b c d)) = (build_matrix a b c d).transpose := by
    ext i j
    fin_cases i <;> fin_cases j <;>
      simp [gl_read, row_major, build_matrix, Matrix.transpose_apply,
        Matrix.vecHead, Matrix.vecTail]
  refine ⟨hT, ?_, ?_⟩ <;> rw [hT] <;>
    simp [shader_output, Matrix.mulVec, Matrix.dotProduct,
      Fin.sum_univ_four, build_matrix, Matrix.transpose_apply,
      Matrix.vecHead, Matrix.vecTail, mul_comm]

/-! ## Claim theorems: the geometry builders -/

/-- A chunk contributed by one loop iteration is an infix of the whole
flat-mapped list (shared helper for C6). -/
theorem flatMap_infix_of_mem {α β : Type} {a : α} {l : List α} (f : α → List β)
    (h : a ∈ l) : f a <:+: l.flatMap f := by
  obtain ⟨s, t, rfl⟩ := List.append_of_mem h
  refine ⟨s.flatMap f, t.flatMap f, ?_⟩
  simp

/-- The length of a flat map whose chunks all have length 8 (shared
helper for C6). -/
theorem length_flatMap_const8 {α : Type} (l : List α) (f : α → List ℤ)
    (h : ∀ a ∈ l, (f a).length = 8) : (l.flatMap f).length = 8 * l.length := by
  induction l with
  | nil => simp
  | cons a l ih =>
    simp only [List.flatMap_cons, List.length_append, List.length_cons]
    rw [h a (List.mem_cons_self a l), ih fun b hb => h b (List.mem_cons_of_mem a hb)]
    ring

/-- Claim C6: `make_grid n` emits, for every integer `i` with
`|i| ≤ n`, one vertical and one horizontal segment spanning the full
extent; it contains exactly `2 * (2n + 1)` segments (four coordinates
each), and every emitted coordinate has absolute value at most `n`. -/
theorem make_grid_spec :
    ∀ n : ℕ,
      (make_grid n).length = 4 * (2 * (2 * n + 1))
      ∧ (∀ z ∈ make_grid n, |z| ≤ (n : ℤ))
      ∧ (∀ i : ℤ, -(n : ℤ) ≤ i → i ≤ (n : ℤ) →
          [i, -(n : ℤ), i, (n : ℤ)] <:+: make_grid n
          ∧ [-(n : ℤ), i, (n : ℤ), i] <:+: make_grid n) := by
  intro n
  refine ⟨?_, ?_, ?_⟩
  · rw [make_grid, length_flatMap_const8]
    · simp [Nat.mul_comm, Nat.mul_assoc, Nat.mul_left_comm]
      ring
    · intro a _
      simp
  · intro z hz
    rw [make_grid, List.mem_flatMap] at hz
    obtain ⟨k, hk, hz⟩ := hz
    rw [List.mem_range] at hk
    simp only [List.cons_append, List.nil_append, List.mem_cons,
      List.mem_singleton, List.not_mem_nil, or_false] at hz
    rcases hz with rfl | rfl | rfl | rfl | rfl | rfl | rfl | rfl <;>
      rw [abs_le] <;> omega
  · intro i h1 h2
    have hmem : (i + n).toNat ∈ List.range (2 * n + 1) := by
      rw [List.mem_range]
      omega
    have hinf := flatMap_infix_of_mem
      (fun k : ℕ => (let j : ℤ := (k : ℤ) - (n : ℤ)
        [j, -(n : ℤ), j, (n : ℤ)] ++ [-(n : ℤ), j, (n : ℤ), j])) hmem
    have hj : ((((i + n).toNat : ℕ) : ℤ) - (n : ℤ)) = i := by omega
    rw [make_grid]
    constructor
    · refine List.IsInfix.trans ?_ hinf
      simp only [hj]
      exact ⟨[], [-(n : ℤ), i, (n : ℤ), i], by simp⟩
    · refine List.IsInfix.trans ?_ hinf
      simp only [hj]
      exact ⟨[i, -(n : ℤ), i, (n : ℤ)], [], by simp⟩

/-- Witness for C6 at `n = 2`, `i = 1`: lengths, bounds and both
segments checked on the concrete grid. -/
theorem make_grid_spec_witness :
    (make_grid 2).length = 4 * (2 * (2 * 2 + 1))
    ∧ ([(1 : ℤ), -2, 1, 2] <:+: make_grid 2
        ∧ [(-2 : ℤ), 1, 2, 1] <:+: make_grid 2) :=
  ⟨(make_grid_spec 2).1, (make_grid_spec 2).2.2 1 (by decide) (by decide)⟩

/-- Claim C7: `make_vector x y` is exactly three segments: the shaft
from the origin to `(x, y)` and two arrowhead wings each starting at
the tip `(x, y)` and extending back by `head_len` along
`atan2(y,x) + pi -+ head_ang`; the degenerate direction is
`atan2 0 0 = 0`; and for `(3, 1)` the shaft is exactly
`((0,0), (3,1))` with both wing segments starting at `(3, 1)`. -/
theorem make_vector_spec :
    ∀ x y : ℝ,
      make_vector x y
        = [0, 0, x, y,
           x, y, x + head_len * Real.cos (atan2 y x + Real.pi - head_ang),
                 y + head_len * Real.sin (atan2 y x + Real.pi - head_ang),
           x, y, x + head_len * Real.cos (atan2 y x + Real.pi + head_ang),
                 y + head_len * Real.sin (atan2 y x + Real.pi + head_ang)]
      ∧ (make_vector x y).length = 12
      ∧ atan2 0 0 = 0
      ∧ (make_vector 3 1).take 4 = [0, 0, 3, 1]
      ∧ ((make_vector 3 1).drop 4).take 2 = [3, 1]
      ∧ ((make_vector 3 1).drop 8).take 2 = [3, 1] := by
  intro x y
  have hgen : ∀ u v : ℝ, make_vector u v
      = [0, 0, u, v,
         u, v, u + head_len * Real.cos (atan2 v u + Real.pi - head_ang),
               v + head_len * Real.sin (atan2 v u + Real.pi - head_ang),
         u, v, u + head_len * Real.cos (atan2 v u + Real.pi + head_ang),
               v + head_len * Real.sin (atan2 v u + Real.pi + head_ang)] := by
    intro u v
    simp [make_vector]
  have hzero : atan2 0 0 = 0 := by
    have : (⟨0, 0⟩ : ℂ) = (0 : ℂ) := by
      apply Complex.ext <;> simp
    rw [atan2, this, Complex.arg_zero]
  refine ⟨hgen x y, ?_, hzero, ?_, ?_, ?_⟩ <;> rw [hgen] <;> simp

/-! ## Claim theorems: the render loop -/

/-- Claim C8: an iteration that reads `paused = true` performs no
expression evaluation, no transform construction, no clearing, no
drawing and no presentation — it only sleeps and re-polls — so the frame
on screen stays whatever it was, for every wall-clock time `now`. -/
theorem paused_iteration_inert :
    ∀ (s : Shared) (now : ℝ) (prev : Option (Matrix (Fin 4) (Fin 4) ℝ)),
      s.paused = true →
        (loop_iter s now).evalCount = 0
        ∧ (loop_iter s now).cleared = false
        ∧ (loop_iter s now).drewGrid = false
        ∧ (loop_iter s now).drewArrow = false
        ∧ (loop_iter s now).presented = false
        ∧ (loop_iter s now).slept = true
        ∧ (loop_iter s now).transform = none
        ∧ screen_after prev s now = prev := by
  intro s now prev h
  simp [loop_iter, screen_after, h]

/-- Witness for C8: the default state with `paused` set, at wall-clock
time 5, evaluates nothing and leaves the screen as it was. -/
theorem paused_iteration_inert_witness :
    (loop_iter { default_shared 0 with paused := true } 5).evalCount = 0
    ∧ screen_after none { default_shared 0 with paused := true } 5 = none := by
  have h := paused_iteration_inert { default_shared 0 with paused := true } 5 none rfl
  exact ⟨h.1, h.2.2.2.2.2.2.2⟩

/-- Claim C9: one render-loop iteration writes no field of the shared
control state — its access trace contains reads only, and the state
after the iteration is the state before it — so the render loop is a
pure reader. -/
theorem loop_iteration_writes_nothing :
    ∀ (s : Shared) (now : ℝ) (f : SField),
      loop_iter_shared s now = s ∧ Access.write f ∉ loop_iter_trace s := by
  intro s now f
  refine ⟨rfl, ?_⟩
  by_cases h : s.paused <;> simp [loop_iter_trace, h]

end Sandbox
